import Mathlib

/-!
# DNS-01 provider adapters: Hurricane Electric and Google Cloud DNS

A shallow embedding of `providers/dns/hurricane/hurricane.go` and of the behaviour that
`providers/dns/gcloud/googlecloud_test.go` exercises.

Conventions of the embedding:

* a Go `string` is a Lean `String`, that is, a string of valid UTF-8; its bytes are the UTF-8
  encoding of its characters;
* a Go pointer is an `Option` (`none` is `nil`);
* a Go `error` is an `Option GoError` (`none` is `nil`);
* a `time.Duration` is an `Int` counting nanoseconds;
* code that talks to the outside world threads an explicit state `σ` of that world.
-/

namespace Lego

/-! ## Go run-time values -/

/-- A non-nil Go `error`: either built by `errors.New`, or built by `fmt.Errorf` with a
`%w` verb, in which case it remembers the error it wraps. -/
inductive GoError where
  | new (msg : String)
  | wrap (msg : String) (inner : GoError)
  deriving DecidableEq, Repr

namespace GoError

/-- The method `Error()`: the message of the error. -/
def Error : GoError → String
  | new msg => msg
  | wrap msg _ => msg

/-- The method `Unwrap()` as used by `errors.Unwrap`: the wrapped error, if any. -/
def Unwrap : GoError → Option GoError
  | new _ => none
  | wrap _ inner => some inner

end GoError

/-- The call `fmt.Errorf(format, err)` for a format that is a literal text `pfx` followed
by the verb `%w`. -/
def Errorf_w (pfx : String) (err : GoError) : GoError :=
  GoError.wrap (pfx ++ err.Error) err

/-- The Go type `time.Duration`, a count of nanoseconds. -/
abbrev Duration := Int

/-- The constant `time.Second`. -/
def Second : Duration := 1000000000

/-- The Go type `map[string]string`; `none` is the nil map, and a key is bound to the value
of its first entry. -/
abbrev GoMap := Option (List (String × String))

/-- The builtin `len` on a map: the number of keys (0 for the nil map). -/
def GoMap.len : GoMap → Nat
  | none => 0
  | some entries => (entries.map Prod.fst).dedup.length

/-- The indexing of a map in its comma-ok form: the value bound to the key, if any. -/
def GoMap.get? (m : GoMap) (key : String) : Option String :=
  match m with
  | none => none
  | some entries => (entries.find? (fun entry => entry.1 = key)).map Prod.snd

/-- The bytes of a Go string. -/
def bytes (s : String) : List Nat :=
  (s.data.flatMap String.utf8EncodeChar).map UInt8.toNat

/-- Result of running code that may dereference a nil pointer. -/
inductive Run (α : Type) where
  | ok (a : α)
  | nilPanic
  deriving DecidableEq, Repr

deriving instance DecidableEq for Except

namespace http

/-- The fields of `http.Client` that the adapters set. -/
structure Client where
  Timeout : Duration
  deriving DecidableEq, Repr

end http

/-! ## `crypto/sha256` and `encoding/base64` -/

namespace sha256

/-- The round constants. -/
def K : List Nat := [
  0x428a2f98, 0x71374491, 0xb5c0fbcf, 0xe9b5dba5, 0x3956c25b, 0x59f111f1, 0x923f82a4, 0xab1c5ed5,
  0xd807aa98, 0x12835b01, 0x243185be, 0x550c7dc3, 0x72be5d74, 0x80deb1fe, 0x9bdc06a7, 0xc19bf174,
  0xe49b69c1, 0xefbe4786, 0x0fc19dc6, 0x240ca1cc, 0x2de92c6f, 0x4a7484aa, 0x5cb0a9dc, 0x76f988da,
  0x983e5152, 0xa831c66d, 0xb00327c8, 0xbf597fc7, 0xc6e00bf3, 0xd5a79147, 0x06ca6351, 0x14292967,
  0x27b70a85, 0x2e1b2138, 0x4d2c6dfc, 0x53380d13, 0x650a7354, 0x766a0abb, 0x81c2c92e, 0x92722c85,
  0xa2bfe8a1, 0xa81a664b, 0xc24b8b70, 0xc76c51a3, 0xd192e819, 0xd6990624, 0xf40e3585, 0x106aa070,
  0x19a4c116, 0x1e376c08, 0x2748774c, 0x34b0bcb5, 0x391c0cb3, 0x4ed8aa4a, 0x5b9cca4f, 0x682e6ff3,
  0x748f82ee, 0x78a5636f, 0x84c87814, 0x8cc70208, 0x90befffa, 0xa4506ceb, 0xbef9a3f7, 0xc67178f2]

/-- The initial hash value. -/
def init : List Nat :=
  [0x6a09e667, 0xbb67ae85, 0x3c6ef372, 0xa54ff53a, 0x510e527f, 0x9b05688c, 0x1f83d9ab, 0x5be0cd19]

/-- Truncation to a 32-bit word. -/
def w32 (x : Nat) : Nat := x % 4294967296

/-- Rotation of a 32-bit word to the right. -/
def rotr (x n : Nat) : Nat := (x >>> n) ||| w32 (x <<< (32 - n))

/-- Bitwise complement of a 32-bit word. -/
def compl (x : Nat) : Nat := 4294967295 - x

/-- Padding of a message: the byte 0x80, zero bytes up to 56 modulo 64, and the length of
the message in bits as a 64-bit big-endian number. -/
def pad (msg : List Nat) : List Nat :=
  let n := msg.length
  msg ++ [128] ++ List.replicate ((119 - n % 64) % 64) 0 ++
    (List.range 8).map (fun i => ((8 * n) >>> (8 * (7 - i))) % 256)

/-- The big-endian 32-bit word at offset `i` of a block. -/
def be32 (b : List Nat) (i : Nat) : Nat :=
  b.getD i 0 * 16777216 + b.getD (i + 1) 0 * 65536 + b.getD (i + 2) 0 * 256 + b.getD (i + 3) 0

/-- Extension of the message schedule by `n` further words. -/
def schedule : Nat → List Nat → List Nat
  | 0, w => w
  | n + 1, w =>
    let i := w.length
    let w15 := w.getD (i - 15) 0
    let w2 := w.getD (i - 2) 0
    let s0 := rotr w15 7 ^^^ rotr w15 18 ^^^ (w15 >>> 3)
    let s1 := rotr w2 17 ^^^ rotr w2 19 ^^^ (w2 >>> 10)
    schedule n (w ++ [w32 (w.getD (i - 16) 0 + s0 + w.getD (i - 7) 0 + s1)])

/-- One round of the compression function, on the working variables `a` to `h`, with the
round constant and the schedule word. -/
def round (s : List Nat) (kw : Nat × Nat) : List Nat :=
  match s with
  | [a, b, c, d, e, f, g, h] =>
    let S1 := rotr e 6 ^^^ rotr e 11 ^^^ rotr e 25
    let ch := (e &&& f) ^^^ (compl e &&& g)
    let t1 := w32 (h + S1 + ch + kw.1 + kw.2)
    let S0 := rotr a 2 ^^^ rotr a 13 ^^^ rotr a 22
    let maj := (a &&& b) ^^^ (a &&& c) ^^^ (b &&& c)
    let t2 := w32 (S0 + maj)
    [w32 (t1 + t2), a, b, c, w32 (d + t1), e, f, g]
  | _ => s

/-- Compression of one 64-byte block into the hash value. -/
def block (h : List Nat) (p : List Nat) : List Nat :=
  let w := schedule 48 ((List.range 16).map (fun i => be32 p (4 * i)))
  let s := (K.zip w).foldl round h
  List.zipWith (fun x y => w32 (x + y)) h s

/-- Compression of the first `n` blocks of a padded message. -/
def blocks : Nat → List Nat → List Nat → List Nat
  | 0, h, _ => h
  | n + 1, h, p => blocks n (block h (p.take 64)) (p.drop 64)

/-- The function `sha256.Sum256`: the 32 bytes of the SHA-256 digest of a message. -/
def Sum256 (msg : List Nat) : List Nat :=
  let p := pad msg
  (blocks (p.length / 64) init p).flatMap
    (fun x => [x >>> 24, (x >>> 16) % 256, (x >>> 8) % 256, x % 256])

end sha256

namespace base64

/-- The URL-safe alphabet. -/
def encodeURL : List Char :=
  "ABCDEFGHIJKLMNOPQRSTUVWXYZabcdefghijklmnopqrstuvwxyz0123456789-_".data

/-- The character of a 6-bit value. -/
def sextet (v : Nat) : Char := encodeURL.getD (v % 64) 'A'

/-- Encoding without padding: three bytes give four characters, a rest of one byte gives
two and a rest of two bytes gives three. -/
def encode : List Nat → List Char
  | [] => []
  | [a] => [sextet (a >>> 2), sextet (a <<< 4)]
  | [a, b] => [sextet (a >>> 2), sextet ((a <<< 4) ||| (b >>> 4)), sextet (b <<< 2)]
  | a :: b :: c :: rest =>
    sextet (a >>> 2) :: sextet ((a <<< 4) ||| (b >>> 4)) ::
      sextet ((b <<< 2) ||| (c >>> 6)) :: sextet c :: encode rest

/-- The method `RawURLEncoding.EncodeToString`. -/
def RawURLEncoding_EncodeToString (src : List Nat) : String := String.mk (encode src)

end base64

/-! ## Package `challenge/dns01` -/

namespace dns01

/-- The fields of `dns01.ChallengeInfo` that the adapters read. -/
structure ChallengeInfo where
  EffectiveFQDN : String
  Value : String
  deriving DecidableEq, Repr

/-- Modelled from the spec: the digest of a key authorization that `dns01.GetChallengeInfo`
puts in the TXT record, the SHA-256 digest of its bytes in unpadded URL-safe base64; the
test data of package gcloud shows its value for the empty key authorization. -/
def digest (keyAuth : String) : String :=
  base64.RawURLEncoding_EncodeToString (sha256.Sum256 (bytes keyAuth))

/-- Modelled from the spec: the challenge name `_acme-challenge.<domain>.` of a domain,
before any redirection. -/
def challengeFQDN (domain : String) : String := "_acme-challenge." ++ domain ++ "."

/-- Modelled from the spec: `dns01.GetChallengeInfo`, whose package is not among the
sources. The challenge information is derived from the domain and the key authorization
only: the effective FQDN is `_acme-challenge.<domain>.` as the resolver `cname` redirects
it (the identity where no CNAME redirection applies), the value is the digest of the key
authorization. -/
def GetChallengeInfo (cname : String → String) (domain keyAuth : String) : ChallengeInfo :=
  { EffectiveFQDN := cname (challengeFQDN domain), Value := digest keyAuth }

/-- Modelled from the spec: `dns01.UnFqdn`, whose package is not among the sources. It turns
a fully qualified name into a host name by dropping its final dot, and leaves a name without
a final dot as it is. -/
def UnFqdn (name : String) : String :=
  if name.data.getLast? = some '.' then String.mk name.data.dropLast else name

/-- The constants of package `dns01` that the adapters use as defaults; they are declared
outside the sources and taken as they come. -/
structure Defaults where
  DefaultPropagationTimeout : Duration
  DefaultPollingInterval : Duration
  deriving DecidableEq, Repr

end dns01

/-! ## Package `platform/config/env` -/

namespace env

/-- The process environment: the value of each variable that is set. -/
abbrev Environ := String → Option String

/-- A decimal number, read digit by digit. -/
def atoi (s : String) : Option Nat :=
  if s.data = [] then none
  else s.data.foldl
    (fun acc c => acc.bind (fun n => if c.isDigit then some (10 * n + (c.toNat - 48)) else none))
    (some 0)

/-- Modelled from the spec: `env.GetOrDefaultSecond`, whose package is not among the
sources. An unset variable falls back to the default; a variable that holds a number is
that number of seconds. A value that is not a number is read here as a missing one. -/
def GetOrDefaultSecond (environ : Environ) (envVar : String) (defaultValue : Duration) :
    Duration :=
  match environ envVar with
  | none => defaultValue
  | some v =>
    match atoi v with
    | none => defaultValue
    | some n => (n : Int) * Second

end env

/-! ## Package `providers/dns/hurricane` -/

namespace hurricane

def envNamespace : String := "HURRICANE_"
def EnvTokens : String := envNamespace ++ "TOKENS"
def EnvPropagationTimeout : String := envNamespace ++ "PROPAGATION_TIMEOUT"
def EnvPollingInterval : String := envNamespace ++ "POLLING_INTERVAL"
def EnvHTTPTimeout : String := envNamespace ++ "HTTP_TIMEOUT"
def EnvSequenceInterval : String := envNamespace ++ "SEQUENCE_INTERVAL"

namespace internal

/-- Modelled from the spec: the client of package `hurricane/internal`, which is not among
the sources. It is bound to a static map from a domain name to the update token of its
zone. -/
structure Client where
  credentials : GoMap
  deriving DecidableEq, Repr

/-- Modelled from the spec: `internal.NewClient`, which builds the client from the token
map it is given. -/
def NewClient (credentials : GoMap) : Client := { credentials := credentials }

/-- The rest of a text after the given leading text, if it starts with it. -/
def dropLeading : List Char → List Char → Option (List Char)
  | text, [] => some text
  | [], _ :: _ => none
  | c :: text, l :: leading => if c = l then dropLeading text leading else none

/-- Modelled from the spec: the bare domain name under which the token of a challenge host
name is looked up, the host name without its leading `_acme-challenge.` label. -/
def bareDomain (hostname : String) : String :=
  match dropLeading hostname.data "_acme-challenge.".data with
  | some rest => String.mk rest
  | none => hostname

end internal

/-- The struct `Config`. -/
structure Config where
  Credentials : GoMap
  PropagationTimeout : Duration
  PollingInterval : Duration
  SequenceInterval : Duration
  HTTPClient : Option http.Client
  deriving DecidableEq, Repr

/-- The function `NewDefaultConfig`, in a given process environment. -/
def NewDefaultConfig (environ : env.Environ) (dflt : dns01.Defaults) : Config :=
  { Credentials := none
    PropagationTimeout := env.GetOrDefaultSecond environ EnvPropagationTimeout (300 * Second)
    PollingInterval := env.GetOrDefaultSecond environ EnvPollingInterval dflt.DefaultPollingInterval
    SequenceInterval :=
      env.GetOrDefaultSecond environ EnvSequenceInterval dflt.DefaultPropagationTimeout
    HTTPClient := some { Timeout := env.GetOrDefaultSecond environ EnvHTTPTimeout (30 * Second) } }

/-- The struct `DNSProvider`: two pointers. -/
structure DNSProvider where
  config : Option Config
  client : Option internal.Client
  deriving DecidableEq, Repr

/-- What a call of `NewDNSProviderConfig` yields: the two values it returns, and the
arguments of the calls it made to `internal.NewClient`, in order. -/
structure Construction where
  provider : Option DNSProvider
  err : Option GoError
  built : List GoMap
  deriving DecidableEq, Repr

/-- The function `NewDNSProviderConfig`. -/
def NewDNSProviderConfig (config : Option Config) : Construction :=
  match config with
  | none =>
    { provider := none
      err := some (GoError.new "hurricane: the configuration of the DNS provider is nil")
      built := [] }
  | some cfg =>
    if cfg.Credentials.len = 0 then
      { provider := none, err := some (GoError.new "hurricane: credentials missing"), built := [] }
    else
      let client := internal.NewClient cfg.Credentials
      { provider := some { config := some cfg, client := some client }
        err := none
        built := [cfg.Credentials] }

/-- What lies outside the adapter, over a state `σ` of the outside world: the resolver that
package `dns01` follows CNAME records with, and the effect of the method `UpdateTxtRecord`
of the client of package `hurricane/internal` (receiver, host name, TXT value), which is not
among the sources: the error it returns and the state it leaves. -/
structure Outside (σ : Type) where
  cname : String → String
  UpdateTxtRecord : internal.Client → String → String → σ → Option GoError × σ

/-- The method `Present`. -/
def DNSProvider.Present {σ : Type} (o : Outside σ) (d : DNSProvider)
    (domain _token keyAuth : String) (w : σ) : Run (Option GoError × σ) :=
  let info := dns01.GetChallengeInfo o.cname domain keyAuth
  match d.client with
  | none => Run.nilPanic
  | some client =>
    match o.UpdateTxtRecord client (dns01.UnFqdn info.EffectiveFQDN) info.Value w with
    | (some err, w1) => Run.ok (some (Errorf_w "hurricane: " err), w1)
    | (none, w1) => Run.ok (none, w1)

/-- The method `CleanUp`. -/
def DNSProvider.CleanUp {σ : Type} (o : Outside σ) (d : DNSProvider)
    (domain _token keyAuth : String) (w : σ) : Run (Option GoError × σ) :=
  let info := dns01.GetChallengeInfo o.cname domain keyAuth
  match d.client with
  | none => Run.nilPanic
  | some client =>
    match o.UpdateTxtRecord client (dns01.UnFqdn info.EffectiveFQDN) "." w with
    | (some err, w1) => Run.ok (some (Errorf_w "hurricane: " err), w1)
    | (none, w1) => Run.ok (none, w1)

/-- The method `Timeout`. -/
def DNSProvider.Timeout (d : DNSProvider) : Run (Duration × Duration) :=
  match d.config with
  | none => Run.nilPanic
  | some cfg => Run.ok (cfg.PropagationTimeout, cfg.PollingInterval)

/-- The method `Sequential`. -/
def DNSProvider.Sequential (d : DNSProvider) : Run Duration :=
  match d.config with
  | none => Run.nilPanic
  | some cfg => Run.ok cfg.SequenceInterval

/-- One call of `UpdateTxtRecord`: the receiver and the two arguments. -/
structure UpdateCall where
  client : internal.Client
  hostname : String
  txt : String
  deriving DecidableEq, Repr

/-- The same outside world, which moreover keeps the list of the calls of `UpdateTxtRecord`
it has received, oldest first. -/
def Outside.recording {σ : Type} (o : Outside σ) : Outside (σ × List UpdateCall) :=
  { cname := o.cname
    UpdateTxtRecord := fun c hostname txt w =>
      ((o.UpdateTxtRecord c hostname txt w.1).1,
        ((o.UpdateTxtRecord c hostname txt w.1).2, w.2 ++ [⟨c, hostname, txt⟩])) }

/-- Modelled from the spec: the provider under the overwrite rule, a map from a host name to
the TXT values it holds there. `UpdateTxtRecord` (of package `hurricane/internal`, which is
not among the sources) looks the token of the domain up in the token map of the client at
the time of the update: without a token it returns an error and leaves the records as they
are; with a token it replaces whatever the host name held by the one value sent. The text
of the error is not fixed by the specification. -/
def overwriting (cname : String → String) : Outside (String → List String) :=
  { cname := cname
    UpdateTxtRecord := fun client hostname txt records =>
      match client.credentials.get? (internal.bareDomain hostname) with
      | none =>
        (some (GoError.new
          ("domain " ++ internal.bareDomain hostname ++ " not found in credentials")), records)
      | some _ => (none, fun h => if h = hostname then [txt] else records h) }

end hurricane

/-! ## Package `providers/dns/gcloud`

Only the tests of this package are among the sources; the adapter is modelled from the
specification and from what the tests fix. -/

namespace gcloud

/-- Modelled from the spec: the struct `Config` of package gcloud, which is not among the
sources, with the two fields that its tests set. -/
structure Config where
  Project : String
  HTTPClient : Option http.Client
  deriving DecidableEq, Repr

/-- Modelled from the spec: `NewDefaultConfig` of package gcloud. The tests show that the
configuration it returns carries no HTTP client; its project is set by the caller. -/
def NewDefaultConfig : Config := { Project := "", HTTPClient := none }

/-- Modelled from the spec: the Cloud DNS service client that the provider holds, built on
an HTTP client. -/
structure Service where
  httpClient : http.Client
  deriving DecidableEq, Repr

/-- Modelled from the spec: the struct `DNSProvider` of package gcloud, two pointers as the
tests read them (`p.config`, `p.client`). -/
structure DNSProvider where
  config : Option Config
  client : Option Service
  deriving DecidableEq, Repr

/-- Modelled from the spec: `NewDNSProviderConfig` of package gcloud. Construction fails on
a nil configuration and, with the message that `TestNewDNSProviderConfig` expects, on a
configuration without HTTP client, whatever the project; otherwise it yields a provider
that holds the configuration and a service client built on its HTTP client. -/
def NewDNSProviderConfig (config : Option Config) : Option DNSProvider × Option GoError :=
  match config with
  | none => (none, some (GoError.new "googlecloud: the configuration of the DNS provider is nil"))
  | some cfg =>
    match cfg.HTTPClient with
    | none =>
      (none, some (GoError.new
        "googlecloud: unable to create Google Cloud DNS service: client is nil"))
    | some httpClient =>
      (some { config := some cfg, client := some { httpClient := httpClient } }, none)

/-- The fields of `dns.ResourceRecordSet` that the union rule is about (`Type_` is the
field `Type`). -/
structure ResourceRecordSet where
  Name : String
  Rrdatas : List String
  Type_ : String
  deriving DecidableEq, Repr

/-- The fields of `dns.Change` that the tests read and write. -/
structure Change where
  Additions : List ResourceRecordSet
  Deletions : List ResourceRecordSet
  Status : String
  deriving DecidableEq, Repr

def changeStatusDone : String := "done"

/-- The double quote character. -/
def dquote : Char := Char.ofNat 34

/-- The wire format of a TXT value, as the record sets of the tests show it: the value
between double quotes. -/
def quote (value : String) : String := String.mk (dquote :: value.data ++ [dquote])

/-- The TXT value of a string in wire format: the text between its double quotes; a string
that is not between double quotes stands for itself. -/
def unquote (raw : String) : String :=
  match raw.data with
  | [] => raw
  | c :: rest =>
    if c = dquote ∧ rest.getLast? = some dquote then String.mk rest.dropLast else raw

/-- Modelled from the spec: the Cloud DNS service as the adapter of package gcloud uses it,
over a state `σ` of the service: the resolver that follows CNAME records, the lookup of the
hosted zone of a name (project, name), the listing of the TXT record sets at a name
(project, zone, name) and the submission of a change (project, zone, change). -/
structure Api (σ : Type) where
  cname : String → String
  getHostedZone : String → String → σ → Except GoError String × σ
  findTxtRecords : String → String → String → σ → Except GoError (List ResourceRecordSet) × σ
  applyChanges : String → String → Change → σ → Except GoError Change × σ

/-- Modelled from the spec: the TXT values that the union rule submits for a name, the
existing values and the new one, without duplicates. -/
def union (existing : List String) (value : String) : List String :=
  (existing.map unquote ++ [value]).dedup

/-- Modelled from the spec: the method `Present` of package gcloud, which is not among the
sources. It computes the challenge information, looks the hosted zone up, lists the TXT
values at the challenge name, returns at once when the value is already there, and
otherwise submits one additive change with the union of the existing values and the new
one. It does not wait for the change; an error of the service is returned with the name of
the provider in front. -/
def DNSProvider.Present {σ : Type} (api : Api σ) (d : DNSProvider)
    (domain _token keyAuth : String) (w : σ) : Run (Option GoError × σ) :=
  match d.config, d.client with
  | some cfg, some _ =>
    let info := dns01.GetChallengeInfo api.cname domain keyAuth
    match api.getHostedZone cfg.Project info.EffectiveFQDN w with
    | (Except.error err, w1) => Run.ok (some (Errorf_w "googlecloud: " err), w1)
    | (Except.ok zone, w1) =>
      match api.findTxtRecords cfg.Project zone info.EffectiveFQDN w1 with
      | (Except.error err, w2) => Run.ok (some (Errorf_w "googlecloud: " err), w2)
      | (Except.ok rrsets, w2) =>
        let existing := rrsets.flatMap (fun rrset => rrset.Rrdatas)
        if quote info.Value ∈ existing then Run.ok (none, w2)
        else
          let addition : ResourceRecordSet :=
            { Name := info.EffectiveFQDN, Rrdatas := union existing info.Value, Type_ := "TXT" }
          match api.applyChanges cfg.Project zone
              { Additions := [addition], Deletions := [], Status := "" } w2 with
          | (Except.error err, w3) => Run.ok (some (Errorf_w "googlecloud: " err), w3)
          | (Except.ok _, w3) => Run.ok (none, w3)
  | _, _ => Run.nilPanic

/-- One request to the service. -/
inductive Request where
  | getHostedZone (project name : String)
  | findTxtRecords (project zone name : String)
  | applyChanges (project zone : String) (change : Change)
  deriving DecidableEq, Repr

/-- The same service, which moreover keeps the list of the requests it has received, oldest
first. -/
def Api.recording {σ : Type} (api : Api σ) : Api (σ × List Request) :=
  { cname := api.cname
    getHostedZone := fun project name w =>
      ((api.getHostedZone project name w.1).1,
        ((api.getHostedZone project name w.1).2, w.2 ++ [Request.getHostedZone project name]))
    findTxtRecords := fun project zone name w =>
      ((api.findTxtRecords project zone name w.1).1,
        ((api.findTxtRecords project zone name w.1).2,
          w.2 ++ [Request.findTxtRecords project zone name]))
    applyChanges := fun project zone change w =>
      ((api.applyChanges project zone change w.1).1,
        ((api.applyChanges project zone change w.1).2,
          w.2 ++ [Request.applyChanges project zone change])) }

/-- The mock service of the tests of `Present`: the zone `test`, the given TXT record sets,
and a change handler that rejects a change whose first addition holds a value twice and
reports any other change as done. -/
def mockService (rrsets : List ResourceRecordSet) : Api Unit :=
  { cname := id
    getHostedZone := fun _ _ w => (Except.ok "test", w)
    findTxtRecords := fun _ _ _ w => (Except.ok rrsets, w)
    applyChanges := fun _ _ change w =>
      if (change.Additions.flatMap (fun addition => addition.Rrdatas)).Nodup then
        (Except.ok { change with Status := changeStatusDone }, w)
      else (Except.error (GoError.new "409 Conflict"), w) }

/-- The record sets that the mock service of `TestPresentWithExistingRR` lists. -/
def existingRR : List ResourceRecordSet :=
  [{ Name := "_acme-challenge.lego.wtf."
     Rrdatas := [quote "X7DEQpj8HBSa-_TImW-5JCeuQeRkm5NMpJWZG3hSuFU", quote "huji"]
     Type_ := "TXT" }]

/-- The record sets that the mock service of `TestPresentSkipExistingRR` lists. -/
def skipRR : List ResourceRecordSet :=
  [{ Name := "_acme-challenge.lego.wtf."
     Rrdatas := [quote "47DEQpj8HBSa-_TImW-5JCeuQeRkm5NMpJWZG3hSuFU",
       quote "X7DEQpj8HBSa-_TImW-5JCeuQeRkm5NMpJWZG3hSuFU", quote "huji"]
     Type_ := "TXT" }]

/-- The configuration that `mockBuilder` passes to `NewDNSProviderConfig`. -/
def mockConfig : Config :=
  { NewDefaultConfig with HTTPClient := some { Timeout := 10 * Second }, Project := "manhattan" }

/-- The service client of the provider that `mockBuilder` builds. -/
def mockClient : Service := { httpClient := { Timeout := 10 * Second } }

/-- The provider that `mockBuilder` builds. -/
def mockProvider : DNSProvider := { config := some mockConfig, client := some mockClient }

end gcloud

/-! ## Sample inputs -/

namespace hurricane

/-- The calls on record after a run over a recording outside world. -/
def callsOf {σ : Type} : Run (Option GoError × (σ × List UpdateCall)) → List UpdateCall
  | Run.ok out => out.2.2
  | Run.nilPanic => []

/-- The error that a run returned (none for nil, and for a run that did not return). -/
def errorOf {σ : Type} : Run (Option GoError × σ) → Option GoError
  | Run.ok out => out.1
  | Run.nilPanic => none

/-- The TXT values that a host name holds after a run over the record map of the provider
(none for a run that did not return). -/
def recordsAt : Run (Option GoError × (String → List String)) → String → List String
  | Run.ok out, hostname => out.2 hostname
  | Run.nilPanic, _ => []

/-- A configuration with one token and every optional field at its zero value. -/
def zeroConfig : Config :=
  { Credentials := some [("example.com", "token")]
    PropagationTimeout := 0
    PollingInterval := 0
    SequenceInterval := 0
    HTTPClient := none }

/-- A client with one token. -/
def sampleClient : internal.Client := internal.NewClient (some [("example.com", "token")])

/-- An outside world without CNAME records where every update is accepted. -/
def accepting : Outside Unit :=
  { cname := id, UpdateTxtRecord := fun _ _ _ w => (none, w) }

/-- An outside world without CNAME records where every update fails with the given error. -/
def refusing (err : GoError) : Outside Unit :=
  { cname := id, UpdateTxtRecord := fun _ _ _ w => (some err, w) }

/-- The error of a client that is told that the record to update does not exist. -/
def notFound : GoError := GoError.new "record not found"

/-- A process environment in which no variable is set. -/
def emptyEnviron : env.Environ := fun _ => none

end hurricane

/-! ## Lemmas on the run-time values -/

theorem GoMap.len_eq_zero (m : GoMap) : m.len = 0 ↔ m = none ∨ m = some [] := by
  cases m with
  | none => simp [GoMap.len]
  | some entries =>
    simp [GoMap.len, List.length_eq_zero, List.dedup_eq_nil]

theorem Errorf_w_Error (pfx : String) (err : GoError) :
    (Errorf_w pfx err).Error = pfx ++ err.Error := rfl

theorem Errorf_w_Unwrap (pfx : String) (err : GoError) :
    (Errorf_w pfx err).Unwrap = some err := rfl

theorem dns01.UnFqdn_append_dot (name : String) : dns01.UnFqdn (name ++ ".") = name := by
  have hdata : (name ++ ".").data = name.data ++ ['.'] := by
    rw [String.data_append]
  unfold dns01.UnFqdn
  rw [hdata, List.getLast?_append, List.dropLast_concat]
  simp

theorem dns01.UnFqdn_challengeFQDN (domain : String) :
    dns01.UnFqdn (dns01.challengeFQDN domain) = "_acme-challenge." ++ domain := by
  unfold dns01.challengeFQDN
  exact dns01.UnFqdn_append_dot _

/-! ## Test vectors of the digest -/

/-- The SHA-256 digest of `abc`, a message of one block. -/
theorem sha256.Sum256_abc :
    sha256.Sum256 (bytes "abc") =
      [0xba, 0x78, 0x16, 0xbf, 0x8f, 0x01, 0xcf, 0xea, 0x41, 0x41, 0x40, 0xde, 0x5d, 0xae, 0x22,
       0x23, 0xb0, 0x03, 0x61, 0xa3, 0x96, 0x17, 0x7a, 0x9c, 0xb4, 0x10, 0xff, 0x61, 0xf2, 0x00,
       0x15, 0xad] := by
  decide

set_option maxRecDepth 8192 in
/-- The SHA-256 digest of a message of 56 bytes, which takes two blocks. -/
theorem sha256.Sum256_two_blocks :
    sha256.Sum256 (bytes "abcdbcdecdefdefgefghfghighijhijkijkljklmklmnlmnomnopnopq") =
      [0x24, 0x8d, 0x6a, 0x61, 0xd2, 0x06, 0x38, 0xb8, 0xe5, 0xc0, 0x26, 0x93, 0x0c, 0x3e, 0x60,
       0x39, 0xa3, 0x3c, 0xe4, 0x59, 0x64, 0xff, 0x21, 0x67, 0xf6, 0xec, 0xed, 0xd4, 0x19, 0xdb,
       0x06, 0xc1] := by
  decide

/-- The unpadded encodings of `f`, `fo`, `foo` and `foob`, and the two characters that set
the URL-safe alphabet apart. -/
theorem base64.RawURLEncoding_vectors :
    base64.RawURLEncoding_EncodeToString (bytes "f") = "Zg" ∧
    base64.RawURLEncoding_EncodeToString (bytes "fo") = "Zm8" ∧
    base64.RawURLEncoding_EncodeToString (bytes "foo") = "Zm9v" ∧
    base64.RawURLEncoding_EncodeToString (bytes "foob") = "Zm9vYg" ∧
    base64.RawURLEncoding_EncodeToString [251, 255, 254] = "-__-" := by
  decide

/-! ## Lemmas on the hurricane adapter -/

namespace hurricane

/-- The method `Present` makes one update with the challenge host name and the digest and
hands its outcome back, an error with the name of the provider in front. -/
theorem Present_eq {σ : Type} (o : Outside σ) (cfg : Option Config) (c : internal.Client)
    (domain token keyAuth : String) (w : σ) :
    DNSProvider.Present o ⟨cfg, some c⟩ domain token keyAuth w =
      Run.ok
        ((o.UpdateTxtRecord c (dns01.UnFqdn (o.cname (dns01.challengeFQDN domain)))
            (dns01.digest keyAuth) w).1.map (Errorf_w "hurricane: "),
          (o.UpdateTxtRecord c (dns01.UnFqdn (o.cname (dns01.challengeFQDN domain)))
            (dns01.digest keyAuth) w).2) := by
  unfold DNSProvider.Present dns01.GetChallengeInfo
  rcases h : o.UpdateTxtRecord c (dns01.UnFqdn (o.cname (dns01.challengeFQDN domain)))
    (dns01.digest keyAuth) w with ⟨_ | err, w1⟩ <;> simp [h]

/-- The method `CleanUp` makes one update with the challenge host name and the placeholder
and hands its outcome back, an error with the name of the provider in front. -/
theorem CleanUp_eq {σ : Type} (o : Outside σ) (cfg : Option Config) (c : internal.Client)
    (domain token keyAuth : String) (w : σ) :
    DNSProvider.CleanUp o ⟨cfg, some c⟩ domain token keyAuth w =
      Run.ok
        ((o.UpdateTxtRecord c (dns01.UnFqdn (o.cname (dns01.challengeFQDN domain))) "." w).1.map
            (Errorf_w "hurricane: "),
          (o.UpdateTxtRecord c (dns01.UnFqdn (o.cname (dns01.challengeFQDN domain))) "." w).2) := by
  unfold DNSProvider.CleanUp dns01.GetChallengeInfo
  rcases h : o.UpdateTxtRecord c (dns01.UnFqdn (o.cname (dns01.challengeFQDN domain))) "." w
    with ⟨_ | err, w1⟩ <;> simp [h]

end hurricane

/-! ## The hurricane adapter: construction -/

/-- C1: `hurricane.NewDNSProviderConfig` returns an error exactly when the configuration is
nil or its credentials are nil or empty. On a nil configuration it returns no provider, the
error `hurricane: the configuration of the DNS provider is nil`, and builds no client; on
missing credentials it returns no provider, the error `hurricane: credentials missing`, and
builds no client. In every other case the error is nil, one client is built from the
credentials of the configuration, and the provider returned holds the configuration that
was passed in and that client, both non-nil. -/
theorem hurricane.NewDNSProviderConfig_contract (config : Option hurricane.Config) :
    ((hurricane.NewDNSProviderConfig config).err ≠ none ↔
      (config = none ∨
        ∃ cfg, config = some cfg ∧ (cfg.Credentials = none ∨ cfg.Credentials = some []))) ∧
    (config = none →
      hurricane.NewDNSProviderConfig config =
        { provider := none
          err := some (GoError.new "hurricane: the configuration of the DNS provider is nil")
          built := [] }) ∧
    (∀ cfg, config = some cfg → (cfg.Credentials = none ∨ cfg.Credentials = some []) →
      hurricane.NewDNSProviderConfig config =
        { provider := none
          err := some (GoError.new "hurricane: credentials missing")
          built := [] }) ∧
    (∀ cfg, config = some cfg → ¬ (cfg.Credentials = none ∨ cfg.Credentials = some []) →
      hurricane.NewDNSProviderConfig config =
        { provider :=
            some { config := some cfg, client := some (hurricane.internal.NewClient cfg.Credentials) }
          err := none
          built := [cfg.Credentials] }) := by
  cases config with
  | none => simp [hurricane.NewDNSProviderConfig]
  | some cfg =>
    by_cases h : cfg.Credentials.len = 0
    · have h2 := (GoMap.len_eq_zero cfg.Credentials).mp h
      simp only [hurricane.NewDNSProviderConfig, h, if_true]
      refine ⟨?_, ?_, ?_, ?_⟩
      · simp only [ne_eq, reduceCtorEq, not_false_eq_true, true_iff]
        exact Or.inr ⟨cfg, rfl, h2⟩
      · intro hnil
        cases hnil
      · intro cfg2 _ _
        trivial
      · intro cfg2 heq hnot
        cases heq
        exact absurd h2 hnot
    · have h2 : ¬ (cfg.Credentials = none ∨ cfg.Credentials = some []) :=
        fun hc => h ((GoMap.len_eq_zero cfg.Credentials).mpr hc)
      simp only [hurricane.NewDNSProviderConfig, h, if_false]
      refine ⟨?_, ?_, ?_, ?_⟩
      · simp only [ne_eq, not_true_eq_false, false_iff]
        rintro (hnil | ⟨cfg2, heq, hc⟩)
        · cases hnil
        · cases heq
          exact h2 hc
      · intro hnil
        cases hnil
      · intro cfg2 heq hc
        cases heq
        exact absurd hc h2
      · intro cfg2 heq _
        cases heq
        trivial

/-- Witness of C1 at a configuration with one token: it is accepted, and the provider holds
the configuration and a client built from its credentials. -/
theorem hurricane.NewDNSProviderConfig_contract_witness :
    hurricane.NewDNSProviderConfig (some hurricane.zeroConfig) =
      { provider :=
          some { config := some hurricane.zeroConfig
                 client := some (hurricane.internal.NewClient hurricane.zeroConfig.Credentials) }
        err := none
        built := [hurricane.zeroConfig.Credentials] } :=
  (hurricane.NewDNSProviderConfig_contract (some hurricane.zeroConfig)).2.2.2
    hurricane.zeroConfig rfl (by decide)

/-! ## The hurricane adapter: `Present` and `CleanUp` -/

/-- C2: for every domain, token and key authorization, `Present` makes exactly one call of
`UpdateTxtRecord`: over any outside world and any record of earlier calls, the record
grows by one call, whose host name is the effective challenge FQDN without its final dot and
whose TXT value is the digest of the key authorization; neither depends on the token or on
the state of the outside world. Where the resolver leaves the challenge FQDN as it is, the
host name is `_acme-challenge.<domain>`, and the digest of the empty key authorization is
`47DEQpj8HBSa-_TImW-5JCeuQeRkm5NMpJWZG3hSuFU`. -/
theorem hurricane.Present_sends_digest_once {σ : Type} (o : hurricane.Outside σ)
    (cfg : Option hurricane.Config) (c : hurricane.internal.Client)
    (domain token keyAuth : String) (w : σ) (log : List hurricane.UpdateCall) :
    hurricane.callsOf
        (hurricane.DNSProvider.Present o.recording ⟨cfg, some c⟩ domain token keyAuth (w, log)) =
      log ++ [{ client := c
                hostname := dns01.UnFqdn (o.cname (dns01.challengeFQDN domain))
                txt := dns01.digest keyAuth }] ∧
    (o.cname (dns01.challengeFQDN domain) = dns01.challengeFQDN domain →
      dns01.UnFqdn (o.cname (dns01.challengeFQDN domain)) = "_acme-challenge." ++ domain) ∧
    dns01.digest keyAuth =
      base64.RawURLEncoding_EncodeToString (sha256.Sum256 (bytes keyAuth)) ∧
    dns01.digest "" = "47DEQpj8HBSa-_TImW-5JCeuQeRkm5NMpJWZG3hSuFU" := by
  refine ⟨?_, ?_, rfl, by decide⟩
  · rw [hurricane.Present_eq]
    rfl
  · intro h
    rw [h]
    exact dns01.UnFqdn_challengeFQDN domain

/-- Witness of C2 for the domain `example.com` without CNAME record: the host name of the
call is `_acme-challenge.example.com`. -/
theorem hurricane.Present_sends_digest_once_witness :
    dns01.UnFqdn (hurricane.accepting.cname (dns01.challengeFQDN "example.com")) =
      "_acme-challenge." ++ "example.com" :=
  (hurricane.Present_sends_digest_once hurricane.accepting none hurricane.sampleClient
    "example.com" "" "keyAuth" () []).2.1 rfl

/-- C3: for every domain, token and key authorization, `CleanUp` makes exactly one call of
`UpdateTxtRecord`: over any outside world and any record of earlier calls, the record
grows by one call, to the host name that `Present` uses for the domain, with the value `.`;
a run of `CleanUp` with another token and another key authorization is the same run. -/
theorem hurricane.CleanUp_sends_placeholder_once {σ : Type} (o : hurricane.Outside σ)
    (cfg : Option hurricane.Config) (c : hurricane.internal.Client)
    (domain token keyAuth token2 keyAuth2 : String) (w : σ) (log : List hurricane.UpdateCall) :
    hurricane.callsOf
        (hurricane.DNSProvider.CleanUp o.recording ⟨cfg, some c⟩ domain token keyAuth (w, log)) =
      log ++ [{ client := c
                hostname := dns01.UnFqdn (o.cname (dns01.challengeFQDN domain))
                txt := "." }] ∧
    (hurricane.callsOf
        (hurricane.DNSProvider.CleanUp o.recording ⟨cfg, some c⟩ domain token keyAuth
          (w, log))).map (fun call => call.hostname) =
      (hurricane.callsOf
        (hurricane.DNSProvider.Present o.recording ⟨cfg, some c⟩ domain token2 keyAuth2
          (w, log))).map (fun call => call.hostname) ∧
    hurricane.DNSProvider.CleanUp o.recording ⟨cfg, some c⟩ domain token2 keyAuth2 (w, log) =
      hurricane.DNSProvider.CleanUp o.recording ⟨cfg, some c⟩ domain token keyAuth (w, log) := by
  refine ⟨?_, ?_, ?_⟩
  · rw [hurricane.CleanUp_eq]
    rfl
  · rw [hurricane.CleanUp_eq, hurricane.Present_eq]
    simp [hurricane.callsOf, hurricane.Outside.recording]
  · rw [hurricane.CleanUp_eq, hurricane.CleanUp_eq]

/-- C4: `Present` and `CleanUp` return nil exactly when the call of `UpdateTxtRecord`
returned nil. When the call returns an error `e`, they return an error whose message is
`hurricane: ` followed by the message of `e` and whose unwrapping yields `e`, and the call
is on record once: nothing is retried. -/
theorem hurricane.Present_CleanUp_error_wrapped {σ : Type} (o : hurricane.Outside σ)
    (cfg : Option hurricane.Config) (c : hurricane.internal.Client)
    (domain token keyAuth : String) (w : σ) (log : List hurricane.UpdateCall) :
    (hurricane.DNSProvider.Present o ⟨cfg, some c⟩ domain token keyAuth w =
        Run.ok (none,
          (o.UpdateTxtRecord c (dns01.UnFqdn (o.cname (dns01.challengeFQDN domain)))
            (dns01.digest keyAuth) w).2) ↔
      (o.UpdateTxtRecord c (dns01.UnFqdn (o.cname (dns01.challengeFQDN domain)))
        (dns01.digest keyAuth) w).1 = none) ∧
    (hurricane.DNSProvider.CleanUp o ⟨cfg, some c⟩ domain token keyAuth w =
        Run.ok (none,
          (o.UpdateTxtRecord c (dns01.UnFqdn (o.cname (dns01.challengeFQDN domain))) "." w).2) ↔
      (o.UpdateTxtRecord c (dns01.UnFqdn (o.cname (dns01.challengeFQDN domain))) "." w).1 =
        none) ∧
    (∀ e,
      (o.UpdateTxtRecord c (dns01.UnFqdn (o.cname (dns01.challengeFQDN domain)))
        (dns01.digest keyAuth) w).1 = some e →
      hurricane.DNSProvider.Present o ⟨cfg, some c⟩ domain token keyAuth w =
        Run.ok (some (Errorf_w "hurricane: " e),
          (o.UpdateTxtRecord c (dns01.UnFqdn (o.cname (dns01.challengeFQDN domain)))
            (dns01.digest keyAuth) w).2) ∧
      (Errorf_w "hurricane: " e).Error = "hurricane: " ++ e.Error ∧
      (Errorf_w "hurricane: " e).Unwrap = some e ∧
      (hurricane.callsOf
        (hurricane.DNSProvider.Present o.recording ⟨cfg, some c⟩ domain token keyAuth
          (w, log))).length = log.length + 1) ∧
    (∀ e,
      (o.UpdateTxtRecord c (dns01.UnFqdn (o.cname (dns01.challengeFQDN domain))) "." w).1 =
        some e →
      hurricane.DNSProvider.CleanUp o ⟨cfg, some c⟩ domain token keyAuth w =
        Run.ok (some (Errorf_w "hurricane: " e),
          (o.UpdateTxtRecord c (dns01.UnFqdn (o.cname (dns01.challengeFQDN domain))) "." w).2) ∧
      (Errorf_w "hurricane: " e).Error = "hurricane: " ++ e.Error ∧
      (Errorf_w "hurricane: " e).Unwrap = some e ∧
      (hurricane.callsOf
        (hurricane.DNSProvider.CleanUp o.recording ⟨cfg, some c⟩ domain token keyAuth
          (w, log))).length = log.length + 1) := by
  refine ⟨?_, ?_, ?_, ?_⟩
  · rw [hurricane.Present_eq]
    simp
  · rw [hurricane.CleanUp_eq]
    simp
  · intro e he
    refine ⟨?_, rfl, rfl, ?_⟩
    · rw [hurricane.Present_eq, he]
      rfl
    · rw [hurricane.Present_eq]
      simp [hurricane.callsOf, hurricane.Outside.recording]
  · intro e he
    refine ⟨?_, rfl, rfl, ?_⟩
    · rw [hurricane.CleanUp_eq, he]
      rfl
    · rw [hurricane.CleanUp_eq]
      simp [hurricane.callsOf, hurricane.Outside.recording]

/-- Witness of C4 where the update fails with the error `timeout`: `Present` returns the
error `hurricane: timeout` that wraps it, after one call. -/
theorem hurricane.Present_CleanUp_error_wrapped_witness :
    hurricane.DNSProvider.Present (hurricane.refusing (GoError.new "timeout"))
        ⟨none, some hurricane.sampleClient⟩ "example.com" "" "keyAuth" () =
      Run.ok (some (Errorf_w "hurricane: " (GoError.new "timeout")), ()) ∧
    (Errorf_w "hurricane: " (GoError.new "timeout")).Error =
      "hurricane: " ++ (GoError.new "timeout").Error ∧
    (Errorf_w "hurricane: " (GoError.new "timeout")).Unwrap = some (GoError.new "timeout") ∧
    (hurricane.callsOf
      (hurricane.DNSProvider.Present (hurricane.refusing (GoError.new "timeout")).recording
        ⟨none, some hurricane.sampleClient⟩ "example.com" "" "keyAuth" ((), []))).length =
      ([] : List hurricane.UpdateCall).length + 1 :=
  (hurricane.Present_CleanUp_error_wrapped (hurricane.refusing (GoError.new "timeout")) none
    hurricane.sampleClient "example.com" "" "keyAuth" () []).2.2.1 (GoError.new "timeout") rfl

/-- Counterexample to C5: the client reports that the record of `example.com` does not
exist, and `CleanUp` returns the error `hurricane: record not found`, not nil. -/
theorem hurricane.CleanUp_not_found_surfaces :
    ((hurricane.refusing hurricane.notFound).UpdateTxtRecord hurricane.sampleClient
        "_acme-challenge.example.com" "." ()).1 = some hurricane.notFound ∧
    hurricane.DNSProvider.CleanUp (hurricane.refusing hurricane.notFound)
        ⟨some hurricane.zeroConfig, some hurricane.sampleClient⟩ "example.com" "" "keyAuth" () =
      Run.ok (some (GoError.wrap "hurricane: record not found" hurricane.notFound), ()) ∧
    hurricane.DNSProvider.CleanUp (hurricane.refusing hurricane.notFound)
        ⟨some hurricane.zeroConfig, some hurricane.sampleClient⟩ "example.com" "" "keyAuth" () ≠
      Run.ok (none, ()) := by
  decide

/-- C5, amended: `CleanUp` returns nil exactly when the call of `UpdateTxtRecord` returned
nil. When the client reports that the record to update does not exist, as an error `e`,
`CleanUp` returns the error `hurricane: ` followed by `e`, which wraps `e`, and not nil. -/
theorem hurricane.CleanUp_nil_iff_update_nil {σ : Type} (o : hurricane.Outside σ)
    (cfg : Option hurricane.Config) (c : hurricane.internal.Client)
    (domain token keyAuth : String) (w : σ) :
    ((∃ w1, hurricane.DNSProvider.CleanUp o ⟨cfg, some c⟩ domain token keyAuth w =
        Run.ok (none, w1)) ↔
      (o.UpdateTxtRecord c (dns01.UnFqdn (o.cname (dns01.challengeFQDN domain))) "." w).1 =
        none) ∧
    (∀ e,
      (o.UpdateTxtRecord c (dns01.UnFqdn (o.cname (dns01.challengeFQDN domain))) "." w).1 =
        some e →
      hurricane.DNSProvider.CleanUp o ⟨cfg, some c⟩ domain token keyAuth w =
        Run.ok (some (GoError.wrap ("hurricane: " ++ e.Error) e),
          (o.UpdateTxtRecord c (dns01.UnFqdn (o.cname (dns01.challengeFQDN domain))) "." w).2)) := by
  refine ⟨?_, ?_⟩
  · rw [hurricane.CleanUp_eq]
    simp
  · intro e he
    rw [hurricane.CleanUp_eq, he]
    rfl

/-- Witness of the amended C5 at the client that reports a record that does not exist. -/
theorem hurricane.CleanUp_nil_iff_update_nil_witness :
    hurricane.DNSProvider.CleanUp (hurricane.refusing hurricane.notFound)
        ⟨none, some hurricane.sampleClient⟩ "example.com" "" "keyAuth" () =
      Run.ok (some (GoError.wrap ("hurricane: " ++ hurricane.notFound.Error) hurricane.notFound),
        ()) :=
  (hurricane.CleanUp_nil_iff_update_nil (hurricane.refusing hurricane.notFound) none
    hurricane.sampleClient "example.com" "" "keyAuth" ()).2 hurricane.notFound rfl

/-- Counterexample to C6: the client holds a token for `example.com` only; `Present` for
`sub.example.com` returns an error, and from the empty state the challenge host name of
`sub.example.com` then holds nothing, not the digest of the key authorization. -/
theorem hurricane.Present_without_token :
    hurricane.sampleClient.credentials.get?
        (hurricane.internal.bareDomain "_acme-challenge.sub.example.com") = none ∧
    hurricane.errorOf
        (hurricane.DNSProvider.Present (hurricane.overwriting id)
          ⟨some hurricane.zeroConfig, some hurricane.sampleClient⟩ "sub.example.com" "" "keyAuth"
          (fun _ => [])) ≠ none ∧
    hurricane.recordsAt
        (hurricane.DNSProvider.Present (hurricane.overwriting id)
          ⟨some hurricane.zeroConfig, some hurricane.sampleClient⟩ "sub.example.com" "" "keyAuth"
          (fun _ => [])) "_acme-challenge.sub.example.com" = [] ∧
    hurricane.recordsAt
        (hurricane.DNSProvider.Present (hurricane.overwriting id)
          ⟨some hurricane.zeroConfig, some hurricane.sampleClient⟩ "sub.example.com" "" "keyAuth"
          (fun _ => [])) "_acme-challenge.sub.example.com" ≠ [dns01.digest "keyAuth"] := by
  decide

/-- C6, amended: over the provider seen as a map from a host name to the TXT values it
holds, which `UpdateTxtRecord` overwrites for a domain whose token the client holds and
leaves alone, with an error, for a domain without token: from every starting state a second
`Present` for the same domain and key authorization (with any token argument) returns what
the first returned and leaves the state of the first. Where the client holds a token for
the bare domain of the challenge host name, both succeed and that state holds exactly one
value at the challenge host name, the digest of the key authorization, the other host names
keeping what they held; where it holds none, `Present` returns an error and the state is
the starting state. -/
theorem hurricane.Present_idempotent (cname : String → String) (cfg : Option hurricane.Config)
    (c : hurricane.internal.Client) (domain token token2 keyAuth : String)
    (records : String → List String) :
    (∃ (err : Option GoError) (once : String → List String),
      hurricane.DNSProvider.Present (hurricane.overwriting cname) ⟨cfg, some c⟩ domain token
          keyAuth records = Run.ok (err, once) ∧
      hurricane.DNSProvider.Present (hurricane.overwriting cname) ⟨cfg, some c⟩ domain token2
          keyAuth once = Run.ok (err, once)) ∧
    (∀ tok,
      c.credentials.get?
          (hurricane.internal.bareDomain (dns01.UnFqdn (cname (dns01.challengeFQDN domain)))) =
        some tok →
      ∃ once : String → List String,
        hurricane.DNSProvider.Present (hurricane.overwriting cname) ⟨cfg, some c⟩ domain token
            keyAuth records = Run.ok (none, once) ∧
        hurricane.DNSProvider.Present (hurricane.overwriting cname) ⟨cfg, some c⟩ domain token2
            keyAuth once = Run.ok (none, once) ∧
        once (dns01.UnFqdn (cname (dns01.challengeFQDN domain))) = [dns01.digest keyAuth] ∧
        ∀ hostname, hostname ≠ dns01.UnFqdn (cname (dns01.challengeFQDN domain)) →
          once hostname = records hostname) ∧
    (c.credentials.get?
          (hurricane.internal.bareDomain (dns01.UnFqdn (cname (dns01.challengeFQDN domain)))) =
        none →
      ∃ e, hurricane.DNSProvider.Present (hurricane.overwriting cname) ⟨cfg, some c⟩ domain token
          keyAuth records = Run.ok (some e, records)) := by
  have hsome : ∀ tok,
      c.credentials.get?
          (hurricane.internal.bareDomain (dns01.UnFqdn (cname (dns01.challengeFQDN domain)))) =
        some tok →
      ∃ once : String → List String,
        hurricane.DNSProvider.Present (hurricane.overwriting cname) ⟨cfg, some c⟩ domain token
            keyAuth records = Run.ok (none, once) ∧
        hurricane.DNSProvider.Present (hurricane.overwriting cname) ⟨cfg, some c⟩ domain token2
            keyAuth once = Run.ok (none, once) ∧
        once (dns01.UnFqdn (cname (dns01.challengeFQDN domain))) = [dns01.digest keyAuth] ∧
        ∀ hostname, hostname ≠ dns01.UnFqdn (cname (dns01.challengeFQDN domain)) →
          once hostname = records hostname := by
    intro tok htok
    refine ⟨fun h =>
      if h = dns01.UnFqdn (cname (dns01.challengeFQDN domain)) then [dns01.digest keyAuth]
      else records h, ?_, ?_, ?_, ?_⟩
    · rw [hurricane.Present_eq]
      simp only [hurricane.overwriting, htok, Option.map_none']
    · rw [hurricane.Present_eq]
      simp only [hurricane.overwriting, htok, Option.map_none']
      congr 2
      funext h
      by_cases hh : h = dns01.UnFqdn (cname (dns01.challengeFQDN domain)) <;> simp [hh]
    · simp
    · intro hostname hne
      simp [hne]
  have hnone :
      c.credentials.get?
          (hurricane.internal.bareDomain (dns01.UnFqdn (cname (dns01.challengeFQDN domain)))) =
        none →
      hurricane.DNSProvider.Present (hurricane.overwriting cname) ⟨cfg, some c⟩ domain token
          keyAuth records =
        Run.ok (some (Errorf_w "hurricane: " (GoError.new
          ("domain " ++
            hurricane.internal.bareDomain (dns01.UnFqdn (cname (dns01.challengeFQDN domain))) ++
            " not found in credentials"))), records) ∧
      hurricane.DNSProvider.Present (hurricane.overwriting cname) ⟨cfg, some c⟩ domain token2
          keyAuth records =
        Run.ok (some (Errorf_w "hurricane: " (GoError.new
          ("domain " ++
            hurricane.internal.bareDomain (dns01.UnFqdn (cname (dns01.challengeFQDN domain))) ++
            " not found in credentials"))), records) := by
    intro hno
    constructor <;>
    · rw [hurricane.Present_eq]
      simp only [hurricane.overwriting, hno, Option.map_some']
  refine ⟨?_, hsome, fun hno => ⟨_, (hnone hno).1⟩⟩
  cases hl : c.credentials.get?
      (hurricane.internal.bareDomain (dns01.UnFqdn (cname (dns01.challengeFQDN domain)))) with
  | none => exact ⟨_, records, (hnone hl).1, (hnone hl).2⟩
  | some tok =>
    obtain ⟨once, h1, h2, _⟩ := hsome tok hl
    exact ⟨none, once, h1, h2⟩

/-- Witness of the amended C6 for `example.com`, whose token the client holds, from the
empty state: `Present` succeeds twice with the same state, which holds the digest at the
challenge host name. -/
theorem hurricane.Present_idempotent_witness :
    ∃ once : String → List String,
      hurricane.DNSProvider.Present (hurricane.overwriting id) ⟨none, some hurricane.sampleClient⟩
          "example.com" "" "keyAuth" (fun _ => []) = Run.ok (none, once) ∧
      hurricane.DNSProvider.Present (hurricane.overwriting id) ⟨none, some hurricane.sampleClient⟩
          "example.com" "other" "keyAuth" once = Run.ok (none, once) ∧
      once (dns01.UnFqdn (id (dns01.challengeFQDN "example.com"))) = [dns01.digest "keyAuth"] ∧
      ∀ hostname, hostname ≠ dns01.UnFqdn (id (dns01.challengeFQDN "example.com")) →
        once hostname = [] :=
  (hurricane.Present_idempotent id none hurricane.sampleClient "example.com" "" "other" "keyAuth"
    (fun _ => [])).2.1 "token" (by decide)

/-- The scenario of the overwrite rule: `Present` for `example.com` and the key
authorization `keyAuth` sends the digest of `keyAuth` to `_acme-challenge.example.com`, and
`CleanUp` then sends the placeholder to the same host name. -/
theorem hurricane.scenario_Present_then_CleanUp :
    hurricane.DNSProvider.Present hurricane.accepting.recording
        ⟨some hurricane.zeroConfig, some hurricane.sampleClient⟩ "example.com" "" "keyAuth"
        ((), []) =
      Run.ok (none, ((),
        [{ client := hurricane.sampleClient
           hostname := "_acme-challenge.example.com"
           txt := "pW9ZKG0xz_PCriK-nCMOjADy9eJcgGWIzkkj2fN4uZM" }])) ∧
    hurricane.DNSProvider.CleanUp hurricane.accepting.recording
        ⟨some hurricane.zeroConfig, some hurricane.sampleClient⟩ "example.com" "" "keyAuth"
        ((), [{ client := hurricane.sampleClient
                hostname := "_acme-challenge.example.com"
                txt := "pW9ZKG0xz_PCriK-nCMOjADy9eJcgGWIzkkj2fN4uZM" }]) =
      Run.ok (none, ((),
        [{ client := hurricane.sampleClient
           hostname := "_acme-challenge.example.com"
           txt := "pW9ZKG0xz_PCriK-nCMOjADy9eJcgGWIzkkj2fN4uZM" },
         { client := hurricane.sampleClient
           hostname := "_acme-challenge.example.com"
           txt := "." }])) := by
  decide

/-! ## The hurricane adapter: timing -/

/-- Counterexample to C7: the configuration with one token and every optional field at zero
is accepted, and the provider built from it reports a propagation timeout of zero and a
polling interval of zero. -/
theorem hurricane.zero_config_passed_on :
    (hurricane.NewDNSProviderConfig (some hurricane.zeroConfig)).err = none ∧
    (hurricane.NewDNSProviderConfig (some hurricane.zeroConfig)).provider.map
        hurricane.DNSProvider.Timeout = some (Run.ok (0, 0)) ∧
    (hurricane.NewDNSProviderConfig (some hurricane.zeroConfig)).provider.map
        (fun d => d.config) = some (some hurricane.zeroConfig) := by
  decide

/-- C7, amended: a provider that `NewDNSProviderConfig` returns holds the configuration it
was given, unmodified, and its `Timeout` reports the propagation timeout and the polling
interval of that configuration as they are (and `Sequential` its sequence interval), zero
or not. The defaults are set by `NewDefaultConfig`: where the four timing variables are
unset, it returns 300 s of propagation timeout, the default polling interval, the default
propagation timeout as sequence interval, and an HTTP client with a timeout of 30 s. -/
theorem hurricane.Timeout_reports_config (cfg : hurricane.Config) (d : hurricane.DNSProvider)
    (environ : env.Environ) (dflt : dns01.Defaults) :
    ((hurricane.NewDNSProviderConfig (some cfg)).provider = some d →
      d.config = some cfg ∧
      d.Timeout = Run.ok (cfg.PropagationTimeout, cfg.PollingInterval) ∧
      d.Sequential = Run.ok cfg.SequenceInterval) ∧
    (environ hurricane.EnvPropagationTimeout = none →
      environ hurricane.EnvPollingInterval = none →
      environ hurricane.EnvSequenceInterval = none →
      environ hurricane.EnvHTTPTimeout = none →
      hurricane.NewDefaultConfig environ dflt =
        { Credentials := none
          PropagationTimeout := 300 * Second
          PollingInterval := dflt.DefaultPollingInterval
          SequenceInterval := dflt.DefaultPropagationTimeout
          HTTPClient := some { Timeout := 30 * Second } }) := by
  refine ⟨?_, ?_⟩
  · intro h
    unfold hurricane.NewDNSProviderConfig at h
    by_cases hlen : cfg.Credentials.len = 0
    · simp [hlen] at h
    · simp only [hlen, if_false, Option.some.injEq] at h
      subst h
      exact ⟨rfl, rfl, rfl⟩
  · intro h1 h2 h3 h4
    simp [hurricane.NewDefaultConfig, env.GetOrDefaultSecond, h1, h2, h3, h4]

/-- Witness of the amended C7: the provider built from the zero configuration reports that
configuration, and the default configuration of an empty environment has the defaults. -/
theorem hurricane.Timeout_reports_config_witness :
    ((⟨some hurricane.zeroConfig, some hurricane.sampleClient⟩ : hurricane.DNSProvider).config =
        some hurricane.zeroConfig ∧
      (⟨some hurricane.zeroConfig, some hurricane.sampleClient⟩ : hurricane.DNSProvider).Timeout =
        Run.ok (hurricane.zeroConfig.PropagationTimeout, hurricane.zeroConfig.PollingInterval) ∧
      (⟨some hurricane.zeroConfig, some hurricane.sampleClient⟩ :
        hurricane.DNSProvider).Sequential = Run.ok hurricane.zeroConfig.SequenceInterval) ∧
    hurricane.NewDefaultConfig hurricane.emptyEnviron ⟨60 * Second, 2 * Second⟩ =
      { Credentials := none
        PropagationTimeout := 300 * Second
        PollingInterval := 2 * Second
        SequenceInterval := 60 * Second
        HTTPClient := some { Timeout := 30 * Second } } :=
  ⟨(hurricane.Timeout_reports_config hurricane.zeroConfig
      ⟨some hurricane.zeroConfig, some hurricane.sampleClient⟩ hurricane.emptyEnviron
      ⟨60 * Second, 2 * Second⟩).1 (by decide),
   (hurricane.Timeout_reports_config hurricane.zeroConfig
      ⟨some hurricane.zeroConfig, some hurricane.sampleClient⟩ hurricane.emptyEnviron
      ⟨60 * Second, 2 * Second⟩).2 rfl rfl rfl rfl⟩

/-! ## The gcloud adapter -/

theorem gcloud.unquote_quote (value : String) : gcloud.unquote (gcloud.quote value) = value := by
  simp [gcloud.unquote, gcloud.quote, List.getLast?_append, List.dropLast_concat]

theorem gcloud.mem_union (existing : List String) (value v : String) :
    v ∈ gcloud.union existing value ↔ v ∈ existing.map gcloud.unquote ∨ v = value := by
  simp [gcloud.union, List.mem_dedup]

/-- C8: `Present` of package gcloud applies the union rule. Where the zone lookup and the
listing succeed, the TXT values listed at the challenge FQDN do not hold the quoted
challenge value, and the service reports the change done, `Present` returns nil after
exactly one change request, whose one addition is a TXT record set at the challenge FQDN
that holds every existing value and the new challenge value, no value twice; with no
existing value it holds exactly the digest of the key authorization. -/
theorem gcloud.Present_union {σ : Type} (api : gcloud.Api σ) (cfg : gcloud.Config)
    (svc : gcloud.Service) (domain token keyAuth zone : String) (w w1 w2 w3 : σ)
    (log : List gcloud.Request) (rrsets : List gcloud.ResourceRecordSet) (done : gcloud.Change)
    (hzone : api.getHostedZone cfg.Project (api.cname (dns01.challengeFQDN domain)) w =
      (Except.ok zone, w1))
    (hlist : api.findTxtRecords cfg.Project zone (api.cname (dns01.challengeFQDN domain)) w1 =
      (Except.ok rrsets, w2))
    (hnew : gcloud.quote (dns01.digest keyAuth) ∉ rrsets.flatMap (fun rrset => rrset.Rrdatas))
    (hdone : api.applyChanges cfg.Project zone
        { Additions :=
            [{ Name := api.cname (dns01.challengeFQDN domain)
               Rrdatas :=
                 gcloud.union (rrsets.flatMap (fun rrset => rrset.Rrdatas)) (dns01.digest keyAuth)
               Type_ := "TXT" }]
          Deletions := []
          Status := "" } w2 = (Except.ok done, w3))
    (_hstatus : done.Status = gcloud.changeStatusDone) :
    gcloud.DNSProvider.Present api.recording ⟨some cfg, some svc⟩ domain token keyAuth (w, log) =
      Run.ok (none, (w3,
        log ++ [gcloud.Request.getHostedZone cfg.Project (api.cname (dns01.challengeFQDN domain))]
          ++ [gcloud.Request.findTxtRecords cfg.Project zone
                (api.cname (dns01.challengeFQDN domain))]
          ++ [gcloud.Request.applyChanges cfg.Project zone
                { Additions :=
                    [{ Name := api.cname (dns01.challengeFQDN domain)
                       Rrdatas :=
                         gcloud.union (rrsets.flatMap (fun rrset => rrset.Rrdatas))
                           (dns01.digest keyAuth)
                       Type_ := "TXT" }]
                  Deletions := []
                  Status := "" }])) ∧
    (∀ raw ∈ rrsets.flatMap (fun rrset => rrset.Rrdatas),
      gcloud.unquote raw ∈
        gcloud.union (rrsets.flatMap (fun rrset => rrset.Rrdatas)) (dns01.digest keyAuth)) ∧
    (∀ value, gcloud.quote value ∈ rrsets.flatMap (fun rrset => rrset.Rrdatas) →
      value ∈ gcloud.union (rrsets.flatMap (fun rrset => rrset.Rrdatas)) (dns01.digest keyAuth)) ∧
    dns01.digest keyAuth ∈
      gcloud.union (rrsets.flatMap (fun rrset => rrset.Rrdatas)) (dns01.digest keyAuth) ∧
    (gcloud.union (rrsets.flatMap (fun rrset => rrset.Rrdatas)) (dns01.digest keyAuth)).Nodup ∧
    (rrsets.flatMap (fun rrset => rrset.Rrdatas) = [] →
      gcloud.union (rrsets.flatMap (fun rrset => rrset.Rrdatas)) (dns01.digest keyAuth) =
        [dns01.digest keyAuth]) := by
  refine ⟨?_, ?_, ?_, ?_, ?_, ?_⟩
  · simp only [gcloud.DNSProvider.Present, dns01.GetChallengeInfo, gcloud.Api.recording, hzone,
      hlist, hnew, hdone, if_false, List.append_assoc]
  · intro raw hraw
    exact (gcloud.mem_union _ _ _).mpr (Or.inl (List.mem_map_of_mem _ hraw))
  · intro value hvalue
    refine (gcloud.mem_union _ _ _).mpr (Or.inl ?_)
    rw [← gcloud.unquote_quote value]
    exact List.mem_map_of_mem _ hvalue
  · exact (gcloud.mem_union _ _ _).mpr (Or.inr rfl)
  · exact List.nodup_dedup _
  · intro hnil
    simp [gcloud.union, hnil]

/-- Witness of C8 on the mock service of `TestPresentWithExistingRR`, for the domain
`lego.wtf` and the empty key authorization. -/
theorem gcloud.Present_union_witness :
    gcloud.DNSProvider.Present (gcloud.mockService gcloud.existingRR).recording
        ⟨some gcloud.mockConfig, some gcloud.mockClient⟩ "lego.wtf" "" "" ((), []) =
      Run.ok (none, ((),
        [] ++ [gcloud.Request.getHostedZone gcloud.mockConfig.Project
                ((gcloud.mockService gcloud.existingRR).cname (dns01.challengeFQDN "lego.wtf"))]
          ++ [gcloud.Request.findTxtRecords gcloud.mockConfig.Project "test"
                ((gcloud.mockService gcloud.existingRR).cname (dns01.challengeFQDN "lego.wtf"))]
          ++ [gcloud.Request.applyChanges gcloud.mockConfig.Project "test"
                { Additions :=
                    [{ Name :=
                         (gcloud.mockService gcloud.existingRR).cname
                           (dns01.challengeFQDN "lego.wtf")
                       Rrdatas :=
                         gcloud.union (gcloud.existingRR.flatMap (fun rrset => rrset.Rrdatas))
                           (dns01.digest "")
                       Type_ := "TXT" }]
                  Deletions := []
                  Status := "" }])) :=
  (gcloud.Present_union (gcloud.mockService gcloud.existingRR) gcloud.mockConfig
    gcloud.mockClient "lego.wtf" "" "" "test" () () () () [] gcloud.existingRR
    { Additions :=
        [{ Name := (gcloud.mockService gcloud.existingRR).cname (dns01.challengeFQDN "lego.wtf")
           Rrdatas :=
             gcloud.union (gcloud.existingRR.flatMap (fun rrset => rrset.Rrdatas))
               (dns01.digest "")
           Type_ := "TXT" }]
      Deletions := []
      Status := gcloud.changeStatusDone }
    rfl rfl (by decide) (by decide) rfl).1

/-- C9: `Present` of package gcloud skips a value that is already there. Where the zone
lookup and the listing succeed and the TXT values listed at the challenge FQDN hold the
quoted challenge value, `Present` returns nil after the zone lookup and the listing alone:
no change request is made. The quoted challenge value of the empty key authorization is
`47DEQpj8HBSa-_TImW-5JCeuQeRkm5NMpJWZG3hSuFU` between double quotes. -/
theorem gcloud.Present_skips_existing {σ : Type} (api : gcloud.Api σ) (cfg : gcloud.Config)
    (svc : gcloud.Service) (domain token keyAuth zone : String) (w w1 w2 : σ)
    (log : List gcloud.Request) (rrsets : List gcloud.ResourceRecordSet)
    (hzone : api.getHostedZone cfg.Project (api.cname (dns01.challengeFQDN domain)) w =
      (Except.ok zone, w1))
    (hlist : api.findTxtRecords cfg.Project zone (api.cname (dns01.challengeFQDN domain)) w1 =
      (Except.ok rrsets, w2))
    (hold : gcloud.quote (dns01.digest keyAuth) ∈ rrsets.flatMap (fun rrset => rrset.Rrdatas)) :
    gcloud.DNSProvider.Present api.recording ⟨some cfg, some svc⟩ domain token keyAuth (w, log) =
      Run.ok (none, (w2,
        log ++ [gcloud.Request.getHostedZone cfg.Project (api.cname (dns01.challengeFQDN domain))]
          ++ [gcloud.Request.findTxtRecords cfg.Project zone
                (api.cname (dns01.challengeFQDN domain))])) ∧
    gcloud.quote (dns01.digest "") =
      String.mk ([gcloud.dquote] ++ "47DEQpj8HBSa-_TImW-5JCeuQeRkm5NMpJWZG3hSuFU".data ++
        [gcloud.dquote]) := by
  refine ⟨?_, by decide⟩
  simp only [gcloud.DNSProvider.Present, dns01.GetChallengeInfo, gcloud.Api.recording, hzone,
    hlist, hold, if_true, List.append_assoc]

/-- Witness of C9 on the mock service of `TestPresentSkipExistingRR`, for the domain
`lego.wtf` and the empty key authorization. -/
theorem gcloud.Present_skips_existing_witness :
    gcloud.DNSProvider.Present (gcloud.mockService gcloud.skipRR).recording
        ⟨some gcloud.mockConfig, some gcloud.mockClient⟩ "lego.wtf" "" "" ((), []) =
      Run.ok (none, ((),
        [] ++ [gcloud.Request.getHostedZone gcloud.mockConfig.Project
                ((gcloud.mockService gcloud.skipRR).cname (dns01.challengeFQDN "lego.wtf"))]
          ++ [gcloud.Request.findTxtRecords gcloud.mockConfig.Project "test"
                ((gcloud.mockService gcloud.skipRR).cname (dns01.challengeFQDN "lego.wtf"))])) :=
  (gcloud.Present_skips_existing (gcloud.mockService gcloud.skipRR) gcloud.mockConfig
    gcloud.mockClient "lego.wtf" "" "" "test" () () () [] gcloud.skipRR rfl rfl (by decide)).1

/-- C10: `NewDNSProviderConfig` of package gcloud fails on a configuration without HTTP
client: for every project, on the default configuration with that project it returns no
provider and the error `googlecloud: unable to create Google Cloud DNS service: client is
nil`. On a configuration with an HTTP client and a project that is not empty it returns a
nil error and a provider whose configuration and client are not nil. -/
theorem gcloud.NewDNSProviderConfig_client (project : String) (cfg : gcloud.Config)
    (httpClient : http.Client) :
    gcloud.NewDNSProviderConfig (some { gcloud.NewDefaultConfig with Project := project }) =
      (none, some (GoError.new
        "googlecloud: unable to create Google Cloud DNS service: client is nil")) ∧
    (GoError.new "googlecloud: unable to create Google Cloud DNS service: client is nil").Error =
      "googlecloud: unable to create Google Cloud DNS service: client is nil" ∧
    (cfg.HTTPClient = some httpClient → cfg.Project ≠ "" →
      (gcloud.NewDNSProviderConfig (some cfg)).2 = none ∧
      ∃ p, (gcloud.NewDNSProviderConfig (some cfg)).1 = some p ∧
        p.config = some cfg ∧ p.client = some { httpClient := httpClient } ∧
        p.config ≠ none ∧ p.client ≠ none) := by
  refine ⟨rfl, rfl, ?_⟩
  intro hclient _
  simp [gcloud.NewDNSProviderConfig, hclient]

/-- Witness of C10 at the configuration of `mockBuilder`: construction succeeds. -/
theorem gcloud.NewDNSProviderConfig_client_witness :
    (gcloud.NewDNSProviderConfig (some gcloud.mockConfig)).2 = none ∧
    ∃ p, (gcloud.NewDNSProviderConfig (some gcloud.mockConfig)).1 = some p ∧
      p.config = some gcloud.mockConfig ∧
      p.client = some { httpClient := { Timeout := 10 * Second } } ∧
      p.config ≠ none ∧ p.client ≠ none :=
  (gcloud.NewDNSProviderConfig_client "123" gcloud.mockConfig { Timeout := 10 * Second }).2.2
    rfl (by decide)

/-! ## The tests of package gcloud, replayed on the model -/

/-- The test `TestPresentNoExistingRR`: one additive change with the digest of the empty key
authorization, and a nil error. -/
theorem gcloud.TestPresentNoExistingRR :
    gcloud.DNSProvider.Present (gcloud.mockService []).recording gcloud.mockProvider
        "lego.wtf" "" "" ((), []) =
      Run.ok (none, ((),
        [gcloud.Request.getHostedZone "manhattan" "_acme-challenge.lego.wtf.",
         gcloud.Request.findTxtRecords "manhattan" "test" "_acme-challenge.lego.wtf.",
         gcloud.Request.applyChanges "manhattan" "test"
           { Additions :=
               [{ Name := "_acme-challenge.lego.wtf."
                  Rrdatas := ["47DEQpj8HBSa-_TImW-5JCeuQeRkm5NMpJWZG3hSuFU"]
                  Type_ := "TXT" }]
             Deletions := []
             Status := "" }])) := by
  decide

/-- The test `TestPresentWithExistingRR`: one additive change with the two existing values
and the new one, which the mock service accepts, and a nil error. -/
theorem gcloud.TestPresentWithExistingRR :
    gcloud.DNSProvider.Present (gcloud.mockService gcloud.existingRR).recording
        gcloud.mockProvider "lego.wtf" "" "" ((), []) =
      Run.ok (none, ((),
        [gcloud.Request.getHostedZone "manhattan" "_acme-challenge.lego.wtf.",
         gcloud.Request.findTxtRecords "manhattan" "test" "_acme-challenge.lego.wtf.",
         gcloud.Request.applyChanges "manhattan" "test"
           { Additions :=
               [{ Name := "_acme-challenge.lego.wtf."
                  Rrdatas := ["X7DEQpj8HBSa-_TImW-5JCeuQeRkm5NMpJWZG3hSuFU", "huji",
                    "47DEQpj8HBSa-_TImW-5JCeuQeRkm5NMpJWZG3hSuFU"]
                  Type_ := "TXT" }]
             Deletions := []
             Status := "" }])) := by
  decide

/-- The test `TestPresentSkipExistingRR`: no change request, and a nil error. -/
theorem gcloud.TestPresentSkipExistingRR :
    gcloud.DNSProvider.Present (gcloud.mockService gcloud.skipRR).recording
        gcloud.mockProvider "lego.wtf" "" "" ((), []) =
      Run.ok (none, ((),
        [gcloud.Request.getHostedZone "manhattan" "_acme-challenge.lego.wtf.",
         gcloud.Request.findTxtRecords "manhattan" "test" "_acme-challenge.lego.wtf."])) := by
  decide

/-- The test `TestNewDNSProviderConfig`, both cases: the error expected for the projects
`123` and the empty one. -/
theorem gcloud.TestNewDNSProviderConfig :
    (gcloud.NewDNSProviderConfig
        (some { gcloud.NewDefaultConfig with Project := "123" })).2.map GoError.Error =
      some "googlecloud: unable to create Google Cloud DNS service: client is nil" ∧
    (gcloud.NewDNSProviderConfig
        (some { gcloud.NewDefaultConfig with Project := "" })).2.map GoError.Error =
      some "googlecloud: unable to create Google Cloud DNS service: client is nil" := by
  decide

/-- The provider of `mockBuilder` is the one that `NewDNSProviderConfig` returns for its
configuration. -/
theorem gcloud.mockBuilder_provider :
    gcloud.NewDNSProviderConfig (some gcloud.mockConfig) = (some gcloud.mockProvider, none) := by
  decide

end Lego
